import Mathlib

/-!
Verification of the denormalized-view consistency engine of the
CassandraBugTracker service.

Source files embedded here:
- src/models.py   : Status / Priority enums, IssueCreate, IssueUpdate, IssueResponse
- src/database.py : table schemas (column lists and primary keys of
  issues_by_project, issues_by_status, issues_by_priority,
  issues_by_assignee, issues_by_component, issue_history)
- src/main.py     : create_issue (lines 175-265) and the two registrations of
  the PUT /issues/:issue_id handler, update_issue (lines 505-745 and 748-1017)

Modelling conventions:
- uuid.UUID values are modelled as naturals; the rendering str(uuid) is an
  injective function modelled by toString.  datetime timestamps are naturals.
- The data-access interface (session.execute / fetchOne) is abstract, per the
  spec: each handler is a pure function from the rows its reads return to the
  sequence of write intents it issues (a List WriteOp, in execution order)
  together with its result.  Storage failures are out of scope of the pure
  model; the catch-all exception wrapper of each handler is modelled by
  servedStatus below.
- Cassandra rows are modelled with the exact column lists of database.py;
  non-key columns are nullable (Option), partition and clustering key columns
  of issues_by_project (project_id, created_at, issue_id) are not.
  reporter_id is kept nullable as in the schema.
- Pydantic IssueUpdate with dict(exclude_unset=True) distinguishes an omitted
  field from a field explicitly supplied as null: each payload field is
  Option (Option v) - outer none = omitted, some none = supplied as null.
- Python truthiness used by the handlers: None and "" are falsy for strings
  (optTruthy); uuid.UUID instances are always truthy, so a UUID-valued
  Optional is truthy exactly when it is not None (Option.isSome).
-/

namespace BugTracker

/-- Opaque identifier (uuid.UUID), modelled as a natural.  str(uuid) is
modelled by toString, which is injective on naturals. -/
abbrev UUID := Nat

/-- datetime timestamp, modelled as a natural. -/
abbrev Timestamp := Nat

/-- models.py Status enum. -/
inductive Status where
  | OPEN | IN_PROGRESS | RESOLVED | CLOSED | REOPENED
  deriving DecidableEq, Repr

/-- The .value string of a Status member (models.py lines 15-20). -/
def Status.val : Status → String
  | .OPEN => "open"
  | .IN_PROGRESS => "in_progress"
  | .RESOLVED => "resolved"
  | .CLOSED => "closed"
  | .REOPENED => "reopened"

/-- models.py Priority enum. -/
inductive Priority where
  | LOW | MEDIUM | HIGH | CRITICAL
  deriving DecidableEq, Repr

/-- The .value string of a Priority member (models.py lines 8-12). -/
def Priority.val : Priority → String
  | .LOW => "low"
  | .MEDIUM => "medium"
  | .HIGH => "high"
  | .CRITICAL => "critical"

/-- A row of the canonical table issues_by_project, with exactly the columns
of its schema (database.py lines 108-122).  Note: the table has NO component
column.  Key columns (project_id, created_at, issue_id) are non-null; the
remaining columns are nullable as in Cassandra. -/
structure CanonicalRow where
  project_id : UUID
  created_at : Timestamp
  issue_id : UUID
  title : Option String
  description : Option String
  status : Option String
  priority : Option String
  assignee_id : Option UUID
  reporter_id : Option UUID
  updated_at : Option Timestamp
  deriving DecidableEq, Repr

/-- models.py IssueUpdate under dict(exclude_unset=True): outer none means the
caller omitted the field, some v means the caller supplied v, where v itself
may be none (explicit null). -/
structure IssueUpdate where
  title : Option (Option String)
  description : Option (Option String)
  status : Option (Option Status)
  priority : Option (Option Priority)
  assignee_id : Option (Option UUID)
  component : Option (Option String)
  deriving DecidableEq, Repr

/-- `if not updated_fields:` (main.py lines 534-536 and 780-782): the
exclude_unset dict is empty iff every field was omitted. -/
def IssueUpdate.isEmpty (u : IssueUpdate) : Bool :=
  u.title.isNone && u.description.isNone && u.status.isNone &&
    u.priority.isNone && u.assignee_id.isNone && u.component.isNone

/-- models.py IssueCreate (all model-validated fields; title and description
are required, status defaults to OPEN and priority to MEDIUM at the model
boundary, already resolved here). -/
structure IssueCreate where
  project_id : UUID
  title : String
  description : String
  status : Status
  priority : Priority
  assignee_id : Option UUID
  reporter_id : UUID
  component : Option String
  deriving DecidableEq, Repr

/-- models.py IssueResponse as the handlers build it (main.py lines 251-263,
730-742, 1002-1014).  FastAPI would additionally validate non-null title,
description, status, priority and reporter_id before serialization; that
validation runs after every write has been issued and is not modelled. -/
structure IssueResponse where
  issue_id : UUID
  project_id : UUID
  title : Option String
  description : Option String
  status : Option String
  priority : Option String
  assignee_id : Option UUID
  reporter_id : Option UUID
  component : Option String
  created_at : Timestamp
  updated_at : Timestamp
  deriving DecidableEq, Repr

/-- updated_fields.get(field, old): the merged value of one field - the
supplied value when the field is present in the payload, the current value
otherwise. -/
def suppliedOr {α : Type} (f : Option (Option α)) (old : Option α) : Option α :=
  match f with
  | some v => v
  | none => old

/-- Python truthiness of an optional string: None and "" are falsy. -/
def optTruthy : Option String → Bool
  | none => false
  | some s => !(s == "")

/-- `x if x else None` on an optional string (main.py lines 826-827):
normalizes the falsy empty string to None. -/
def normComp : Option String → Option String
  | none => none
  | some s => if s == "" then none else some s

/-- Merged title: new_title = updated_fields.get('title', old_title). -/
def mergedTitle (cur : CanonicalRow) (u : IssueUpdate) : Option String :=
  suppliedOr u.title cur.title

/-- Merged description. -/
def mergedDescription (cur : CanonicalRow) (u : IssueUpdate) : Option String :=
  suppliedOr u.description cur.description

/-- Merged status, as the string stored in Cassandra.  A supplied Status enum
member is a str subclass whose content is its .value, so comparisons with the
stored string and the stored value itself use Status.val. -/
def mergedStatus (cur : CanonicalRow) (u : IssueUpdate) : Option String :=
  match u.status with
  | some v => v.map Status.val
  | none => cur.status

/-- Merged priority, as the string stored in Cassandra. -/
def mergedPriority (cur : CanonicalRow) (u : IssueUpdate) : Option String :=
  match u.priority with
  | some v => v.map Priority.val
  | none => cur.priority

/-- Merged assignee. -/
def mergedAssignee (cur : CanonicalRow) (u : IssueUpdate) : Option UUID :=
  suppliedOr u.assignee_id cur.assignee_id

/-- Merged component, over the current component value oldComp (which each
handler obtains its own way, see below). -/
def mergedComponent (oldComp : Option String) (u : IssueUpdate) : Option String :=
  suppliedOr u.component oldComp

/-- One write intent against the storage layer, in the shape of the CQL
statements issued by main.py.  Every argument list mirrors the statement's
parameter list; key columns come first in table order. -/
inductive WriteOp where
  /-- INSERT INTO issues_by_project (create_issue, main.py lines 182-187). -/
  | insertByProject (project : UUID) (created : Timestamp) (issue : UUID)
      (title description status priority : Option String)
      (assignee reporter : Option UUID) (updated : Option Timestamp)
  /-- UPDATE issues_by_project SET title, description, status, priority,
  assignee_id, updated_at WHERE project_id, created_at, issue_id
  (main.py lines 549-559 and 832-842).  reporter_id is not in the SET list. -/
  | updateByProject (project : UUID) (created : Timestamp) (issue : UUID)
      (title description status priority : Option String)
      (assignee : Option UUID) (updated : Timestamp)
  /-- INSERT INTO issues_by_status. -/
  | insertByStatus (project : UUID) (status : Option String)
      (created : Timestamp) (issue : UUID)
      (title priority : Option String) (assignee : Option UUID)
  /-- DELETE FROM issues_by_status WHERE full primary key. -/
  | deleteByStatus (project : UUID) (status : Option String)
      (created : Timestamp) (issue : UUID)
  /-- UPDATE issues_by_status SET title, priority, assignee_id WHERE key. -/
  | updateByStatus (project : UUID) (status : Option String)
      (created : Timestamp) (issue : UUID)
      (title priority : Option String) (assignee : Option UUID)
  /-- INSERT INTO issues_by_priority. -/
  | insertByPriority (project : UUID) (priority : Option String)
      (created : Timestamp) (issue : UUID)
      (title status : Option String) (assignee : Option UUID)
  /-- DELETE FROM issues_by_priority WHERE full primary key. -/
  | deleteByPriority (project : UUID) (priority : Option String)
      (created : Timestamp) (issue : UUID)
  /-- UPDATE issues_by_priority SET title, status, assignee_id WHERE key. -/
  | updateByPriority (project : UUID) (priority : Option String)
      (created : Timestamp) (issue : UUID)
      (title status : Option String) (assignee : Option UUID)
  /-- INSERT INTO issues_by_assignee. -/
  | insertByAssignee (project : UUID) (assignee : UUID) (status : Option String)
      (created : Timestamp) (issue : UUID) (title priority : Option String)
  /-- DELETE FROM issues_by_assignee WHERE full primary key. -/
  | deleteByAssignee (project : UUID) (assignee : UUID) (status : Option String)
      (created : Timestamp) (issue : UUID)
  /-- UPDATE issues_by_assignee SET title, priority WHERE key. -/
  | updateByAssignee (project : UUID) (assignee : UUID) (status : Option String)
      (created : Timestamp) (issue : UUID) (title priority : Option String)
  /-- INSERT INTO issues_by_component. -/
  | insertByComponent (project : UUID) (comp : Option String)
      (created : Timestamp) (issue : UUID)
      (title status priority : Option String) (assignee : Option UUID)
  /-- DELETE FROM issues_by_component WHERE full primary key. -/
  | deleteByComponent (project : UUID) (comp : Option String)
      (created : Timestamp) (issue : UUID)
  /-- UPDATE issues_by_component SET title, status, priority, assignee_id
  WHERE key. -/
  | updateByComponent (project : UUID) (comp : Option String)
      (created : Timestamp) (issue : UUID)
      (title status priority : Option String) (assignee : Option UUID)
  /-- INSERT INTO issue_history (main.py lines 711-727 and 983-999). -/
  | insertHistory (project issue : UUID) (changed_at : Timestamp)
      (event_id : UUID) (field : String) (old_value new_value : Option String)
      (changed_by : Option UUID)
  deriving DecidableEq, Repr

/-- The tables of the storage layer touched by write intents. -/
inductive Table where
  | proj | stat | prio | assg | comp | hist
  deriving DecidableEq, Repr

/-- The table a write intent is issued against. -/
def WriteOp.table : WriteOp → Table
  | .insertByProject .. => .proj
  | .updateByProject .. => .proj
  | .insertByStatus .. => .stat
  | .deleteByStatus .. => .stat
  | .updateByStatus .. => .stat
  | .insertByPriority .. => .prio
  | .deleteByPriority .. => .prio
  | .updateByPriority .. => .prio
  | .insertByAssignee .. => .assg
  | .deleteByAssignee .. => .assg
  | .updateByAssignee .. => .assg
  | .insertByComponent .. => .comp
  | .deleteByComponent .. => .comp
  | .updateByComponent .. => .comp
  | .insertHistory .. => .hist

/-- The writes of a sequence issued against one table, in order. -/
def opsOn (t : Table) (l : List WriteOp) : List WriteOp :=
  l.filter fun op => op.table == t

/-- The writes an operation issues against issues_by_status. -/
def statusOps (l : List WriteOp) : List WriteOp := opsOn .stat l

/-- The writes an operation issues against issues_by_priority. -/
def priorityOps (l : List WriteOp) : List WriteOp := opsOn .prio l

/-- The writes an operation issues against issues_by_assignee. -/
def assigneeOps (l : List WriteOp) : List WriteOp := opsOn .assg l

/-- The writes an operation issues against issues_by_component. -/
def componentOps (l : List WriteOp) : List WriteOp := opsOn .comp l

/-- The writes an operation issues against issues_by_project. -/
def canonicalOps (l : List WriteOp) : List WriteOp := opsOn .proj l

/-- The appends an operation issues against issue_history. -/
def historyOps (l : List WriteOp) : List WriteOp := opsOn .hist l

/-- The (field_changed, old_value, new_value) content of a history append;
none for every other write. -/
def historyRecordOf : WriteOp → Option (String × Option String × Option String)
  | .insertHistory _ _ _ _ f ov nv _ => some (f, ov, nv)
  | _ => none

/-- The (field_changed, old_value, new_value) content of every history row an
operation appends, in order, forgetting the generated event_id and the
changed_by and changed_at columns. -/
def historyRecords (l : List WriteOp) : List (String × Option String × Option String) :=
  l.filterMap historyRecordOf

/-- Failure outcomes of an update handler, before the catch-all exception
wrapper.  notFound is the HTTPException(404, "Issue not found") of main.py
lines 531 and 767; noFields is the HTTPException(400, "No fields to update")
of lines 536 and 782; keyErrorComponent is the KeyError raised at line 544
reading current_issue['component'] (see rowComponentLookup); storage stands
for an error raised by the data-access layer (spec section 6), never produced
by the pure model but part of the comparison in the error-handling claims. -/
inductive UpdateFailure where
  | notFound
  | noFields
  | keyErrorComponent
  | storage (msg : String)
  deriving DecidableEq, Repr

/-- The HTTP status code the caller receives, modelling the catch-all
`except Exception as e: raise HTTPException(status_code=500, ...)` at main.py
lines 744-745 and 1016-1017.  HTTPException is itself an Exception subclass,
so the handler's own 404 and 400 raises are caught there and re-raised with
status 500, exactly like a KeyError or a storage error. -/
def servedStatus : Except UpdateFailure IssueResponse → Nat
  | .ok _ => 200
  | .error _ => 500

/-! ## Second registration of PUT /issues/:issue_id (main.py lines 748-1017)

Starlette keeps both registrations in its route table but matches the first
one; this function models the body of the second registration, which reads
the current canonical row with fetchOne, reads the current component from
issues_by_component (curComp; none when no row was found, main.py lines
769-777), and then merges, synchronizes every view and appends history. -/

/-- status_changed (main.py line 847): the field was supplied and its value
differs from the stored one. -/
def v2_status_changed (cur : CanonicalRow) (u : IssueUpdate) : Bool :=
  u.status.isSome && (cur.status != mergedStatus cur u)

/-- priority_changed (main.py line 878). -/
def v2_priority_changed (cur : CanonicalRow) (u : IssueUpdate) : Bool :=
  u.priority.isSome && (cur.priority != mergedPriority cur u)

/-- Writes against issues_by_status (main.py lines 846-875).  On a value
change: DELETE keyed by the old status then INSERT keyed by the new one;
otherwise a single UPDATE of the carried fields - the source keys it by
new_status (line 874), which in this branch equals the old status. -/
def v2_statusOps (p i : UUID) (cur : CanonicalRow) (u : IssueUpdate) : List WriteOp :=
  if v2_status_changed cur u then
    [ .deleteByStatus p cur.status cur.created_at i,
      .insertByStatus p (mergedStatus cur u) cur.created_at i
        (mergedTitle cur u) (mergedPriority cur u) (mergedAssignee cur u) ]
  else
    [ .updateByStatus p (mergedStatus cur u) cur.created_at i
        (mergedTitle cur u) (mergedPriority cur u) (mergedAssignee cur u) ]

/-- Writes against issues_by_priority (main.py lines 877-906). -/
def v2_priorityOps (p i : UUID) (cur : CanonicalRow) (u : IssueUpdate) : List WriteOp :=
  if v2_priority_changed cur u then
    [ .deleteByPriority p cur.priority cur.created_at i,
      .insertByPriority p (mergedPriority cur u) cur.created_at i
        (mergedTitle cur u) (mergedStatus cur u) (mergedAssignee cur u) ]
  else
    [ .updateByPriority p (mergedPriority cur u) cur.created_at i
        (mergedTitle cur u) (mergedStatus cur u) (mergedAssignee cur u) ]

/-- Writes against issues_by_assignee (main.py lines 908-945).  The branch
condition is assignee PRESENCE in the payload (line 909) or a status value
change: then delete the old row when an old assignee exists and insert the
new row when a merged assignee exists; otherwise an in-place UPDATE when a
merged assignee exists. -/
def v2_assigneeOps (p i : UUID) (cur : CanonicalRow) (u : IssueUpdate) : List WriteOp :=
  if u.assignee_id.isSome || v2_status_changed cur u then
    (match cur.assignee_id with
      | some a => [ .deleteByAssignee p a cur.status cur.created_at i ]
      | none => []) ++
    (match mergedAssignee cur u with
      | some a => [ .insertByAssignee p a (mergedStatus cur u) cur.created_at i
          (mergedTitle cur u) (mergedPriority cur u) ]
      | none => [])
  else
    match mergedAssignee cur u with
    | some a => [ .updateByAssignee p a (mergedStatus cur u) cur.created_at i
        (mergedTitle cur u) (mergedPriority cur u) ]
    | none => []

/-- Writes against issues_by_component (main.py lines 947-979).  The branch
condition is component PRESENCE in the payload (line 948); old and new
component values are tested with Python truthiness ("" falsy). -/
def v2_componentOps (p i : UUID) (cur : CanonicalRow) (curComp : Option String)
    (u : IssueUpdate) : List WriteOp :=
  if u.component.isSome then
    (if optTruthy curComp then
      [ .deleteByComponent p curComp cur.created_at i ] else []) ++
    (if optTruthy (mergedComponent curComp u) then
      [ .insertByComponent p (mergedComponent curComp u) cur.created_at i
          (mergedTitle cur u) (mergedStatus cur u) (mergedPriority cur u)
          (mergedAssignee cur u) ] else [])
  else
    if optTruthy (mergedComponent curComp u) then
      [ .updateByComponent p (mergedComponent curComp u) cur.created_at i
          (mergedTitle cur u) (mergedStatus cur u) (mergedPriority cur u)
          (mergedAssignee cur u) ]
    else []

/-- The changes list of the second registration (main.py lines 810-829): one
entry per tracked field that is present in the payload AND whose value
actually differs.  assignee values are compared and recorded after str()
rendering (lines 820-824), component values after `x if x else None`
normalization (lines 825-829).  Status and priority values are recorded as
their stored strings (the enum member is a str subclass carrying its .value;
the dead isinstance conversion at lines 799-803 never fires). -/
def v2_changes (cur : CanonicalRow) (curComp : Option String) (u : IssueUpdate) :
    List (String × Option String × Option String) :=
  (if u.title.isSome && (cur.title != mergedTitle cur u) then
    [("title", cur.title, mergedTitle cur u)] else []) ++
  (if u.description.isSome && (cur.description != mergedDescription cur u) then
    [("description", cur.description, mergedDescription cur u)] else []) ++
  (if u.status.isSome && (cur.status != mergedStatus cur u) then
    [("status", cur.status, mergedStatus cur u)] else []) ++
  (if u.priority.isSome && (cur.priority != mergedPriority cur u) then
    [("priority", cur.priority, mergedPriority cur u)] else []) ++
  (if u.assignee_id.isSome &&
      (cur.assignee_id.map toString != (mergedAssignee cur u).map toString) then
    [("assignee_id", cur.assignee_id.map toString, (mergedAssignee cur u).map toString)]
   else []) ++
  (if u.component.isSome &&
      (normComp curComp != normComp (mergedComponent curComp u)) then
    [("component", normComp curComp, normComp (mergedComponent curComp u))] else [])

/-- The issue_history INSERTs of a changes list (main.py lines 982-999): one
row per entry, all sharing changed_at = updated_at and changed_by =
current_issue['reporter_id'], each with a freshly generated event_id -
genId k is the k-th uuid the handler generates. -/
def historyInserts (p i : UUID) (now : Timestamp) (genId : Nat → UUID)
    (changed_by : Option UUID)
    (changes : List (String × Option String × Option String)) : List WriteOp :=
  changes.enum.map fun e =>
    .insertHistory p i now (genId e.1) e.2.1 e.2.2.1 e.2.2.2 changed_by

/-- The body of the second registration after its reads and checks (main.py
lines 784-1014): every write intent in execution order - canonical UPDATE,
by_status, by_priority, by_assignee, by_component, history - and the
IssueResponse it returns. -/
def update_issue_v2_core (p i : UUID) (cur : CanonicalRow) (curComp : Option String)
    (u : IssueUpdate) (now : Timestamp) (genId : Nat → UUID) :
    List WriteOp × IssueResponse :=
  ( [ .updateByProject p cur.created_at i (mergedTitle cur u)
        (mergedDescription cur u) (mergedStatus cur u) (mergedPriority cur u)
        (mergedAssignee cur u) now ]
    ++ v2_statusOps p i cur u
    ++ v2_priorityOps p i cur u
    ++ v2_assigneeOps p i cur u
    ++ v2_componentOps p i cur curComp u
    ++ historyInserts p i now genId cur.reporter_id (v2_changes cur curComp u),
    { issue_id := i, project_id := p,
      title := mergedTitle cur u, description := mergedDescription cur u,
      status := mergedStatus cur u, priority := mergedPriority cur u,
      assignee_id := mergedAssignee cur u, reporter_id := cur.reporter_id,
      component := mergedComponent curComp u,
      created_at := cur.created_at, updated_at := now } )

/-- The second registration of PUT /issues/:issue_id (main.py lines 748-1017).
rows is what the canonical-row read returns for the partition, curComp the
component value the issues_by_component read returns (none when no row).
Result: the writes issued, and the response or the failure raised. -/
def update_issue_v2 (rows : List CanonicalRow) (curComp : Option String)
    (p i : UUID) (u : IssueUpdate) (now : Timestamp) (genId : Nat → UUID) :
    List WriteOp × Except UpdateFailure IssueResponse :=
  match rows.find? (fun r => r.issue_id == i) with
  | none => ([], .error .notFound)
  | some cur =>
    if u.isEmpty then ([], .error .noFields)
    else ((update_issue_v2_core p i cur curComp u now genId).1,
          .ok (update_issue_v2_core p i cur curComp u now genId).2)

/-! ## First registration of PUT /issues/:issue_id (main.py lines 505-745)

This is the registration Starlette actually routes requests to.  After its
not-found and empty-payload checks it computes
`new_component = updated_fields.get('component', current_issue['component'])`
(line 544).  Python evaluates the .get default eagerly, and the dict_factory
row of `SELECT * FROM issues_by_project` has no component key - the table has
no such column (database.py lines 108-122) - so this access raises KeyError
unconditionally, before the first write (line 555).  The rest of the body
(lines 548-742) is embedded below for reference but is unreachable. -/

/-- Models current_issue['component'] on a row of issues_by_project: the
table has no component column, so the access raises KeyError. -/
def rowComponentLookup (_cur : CanonicalRow) : Except UpdateFailure (Option String) :=
  .error .keyErrorComponent

/-- Writes against issues_by_status in the first registration (main.py lines
569-598): delete+insert whenever status is PRESENT in the payload, even with
an equal value; otherwise an UPDATE keyed by the old status (line 597). -/
def v1_statusOps (p i : UUID) (cur : CanonicalRow) (u : IssueUpdate) : List WriteOp :=
  if u.status.isSome then
    [ .deleteByStatus p cur.status cur.created_at i,
      .insertByStatus p (mergedStatus cur u) cur.created_at i
        (mergedTitle cur u) (mergedPriority cur u) (mergedAssignee cur u) ]
  else
    [ .updateByStatus p cur.status cur.created_at i
        (mergedTitle cur u) (mergedPriority cur u) (mergedAssignee cur u) ]

/-- Writes against issues_by_priority in the first registration (main.py
lines 600-629). -/
def v1_priorityOps (p i : UUID) (cur : CanonicalRow) (u : IssueUpdate) : List WriteOp :=
  if u.priority.isSome then
    [ .deleteByPriority p cur.priority cur.created_at i,
      .insertByPriority p (mergedPriority cur u) cur.created_at i
        (mergedTitle cur u) (mergedStatus cur u) (mergedAssignee cur u) ]
  else
    [ .updateByPriority p cur.priority cur.created_at i
        (mergedTitle cur u) (mergedStatus cur u) (mergedAssignee cur u) ]

/-- Writes against issues_by_assignee in the first registration (main.py
lines 631-672): branch on PRESENCE of assignee_id or status in the payload. -/
def v1_assigneeOps (p i : UUID) (cur : CanonicalRow) (u : IssueUpdate) : List WriteOp :=
  if u.assignee_id.isSome || u.status.isSome then
    (match cur.assignee_id with
      | some a => [ .deleteByAssignee p a cur.status cur.created_at i ]
      | none => []) ++
    (match mergedAssignee cur u with
      | some a => [ .insertByAssignee p a (mergedStatus cur u) cur.created_at i
          (mergedTitle cur u) (mergedPriority cur u) ]
      | none => [])
  else
    match mergedAssignee cur u with
    | some a => [ .updateByAssignee p a (mergedStatus cur u) cur.created_at i
        (mergedTitle cur u) (mergedPriority cur u) ]
    | none => []

/-- Writes against issues_by_component in the first registration (main.py
lines 674-707), over the component value oldComp the body would have read. -/
def v1_componentOps (p i : UUID) (cur : CanonicalRow) (oldComp : Option String)
    (u : IssueUpdate) : List WriteOp :=
  if u.component.isSome then
    (if optTruthy oldComp then
      [ .deleteByComponent p oldComp cur.created_at i ] else []) ++
    (if optTruthy (mergedComponent oldComp u) then
      [ .insertByComponent p (mergedComponent oldComp u) cur.created_at i
          (mergedTitle cur u) (mergedStatus cur u) (mergedPriority cur u)
          (mergedAssignee cur u) ] else [])
  else
    if optTruthy (mergedComponent oldComp u) then
      [ .updateByComponent p (mergedComponent oldComp u) cur.created_at i
          (mergedTitle cur u) (mergedStatus cur u) (mergedPriority cur u)
          (mergedAssignee cur u) ]
    else []

/-- The changes list of the first registration: status, priority and
component entries are appended whenever the field is present in the payload,
with no value comparison (main.py lines 588, 619, 696); the assignee entry
whenever assignee_id is present (lines 658-661); title and description are
never recorded.  Component values are recorded raw, without the empty-string
normalization of the second registration. -/
def v1_changes (cur : CanonicalRow) (oldComp : Option String) (u : IssueUpdate) :
    List (String × Option String × Option String) :=
  (if u.status.isSome then [("status", cur.status, mergedStatus cur u)] else []) ++
  (if u.priority.isSome then [("priority", cur.priority, mergedPriority cur u)] else []) ++
  (if u.assignee_id.isSome then
    [("assignee_id", cur.assignee_id.map toString, (mergedAssignee cur u).map toString)]
   else []) ++
  (if u.component.isSome then [("component", oldComp, mergedComponent oldComp u)] else [])

/-- The body of the first registration from line 548 on, as written, over the
component value oldComp that line 544 would have bound.  Unreachable at
runtime: rowComponentLookup always fails first. -/
def update_issue_v1_core (p i : UUID) (cur : CanonicalRow) (oldComp : Option String)
    (u : IssueUpdate) (now : Timestamp) (genId : Nat → UUID) :
    List WriteOp × IssueResponse :=
  ( [ .updateByProject p cur.created_at i (mergedTitle cur u)
        (mergedDescription cur u) (mergedStatus cur u) (mergedPriority cur u)
        (mergedAssignee cur u) now ]
    ++ v1_statusOps p i cur u
    ++ v1_priorityOps p i cur u
    ++ v1_assigneeOps p i cur u
    ++ v1_componentOps p i cur oldComp u
    ++ historyInserts p i now genId cur.reporter_id (v1_changes cur oldComp u),
    { issue_id := i, project_id := p,
      title := mergedTitle cur u, description := mergedDescription cur u,
      status := mergedStatus cur u, priority := mergedPriority cur u,
      assignee_id := mergedAssignee cur u, reporter_id := cur.reporter_id,
      component := mergedComponent oldComp u,
      created_at := cur.created_at, updated_at := now } )

/-- The first registration of PUT /issues/:issue_id (main.py lines 505-745):
scan the canonical partition for the issue (lines 517-528), 404 when absent,
400 on an empty payload, then the merge step raises KeyError reading
current_issue['component'] before any write is issued. -/
def update_issue_v1 (rows : List CanonicalRow) (p i : UUID) (u : IssueUpdate)
    (now : Timestamp) (genId : Nat → UUID) :
    List WriteOp × Except UpdateFailure IssueResponse :=
  match rows.find? (fun r => r.issue_id == i) with
  | none => ([], .error .notFound)
  | some cur =>
    if u.isEmpty then ([], .error .noFields)
    else
      match rowComponentLookup cur with
      | .error e => ([], .error e)
      | .ok oldComp => ((update_issue_v1_core p i cur oldComp u now genId).1,
                        .ok (update_issue_v1_core p i cur oldComp u now genId).2)

/-! ## create_issue (main.py lines 175-265) -/

/-- POST /issues/ (main.py lines 175-265): insert into issues_by_project and
issues_by_status, into issues_by_assignee only when an assignee is set, into
issues_by_priority, and into issues_by_component only when the component is
truthy; no history row.  issue_id and created_at (= updated_at) are generated
by the handler and passed in here. -/
def create_issue (issue : IssueCreate) (issue_id : UUID) (created_at : Timestamp) :
    List WriteOp × IssueResponse :=
  ( [ .insertByProject issue.project_id created_at issue_id (some issue.title)
        (some issue.description) (some issue.status.val) (some issue.priority.val)
        issue.assignee_id (some issue.reporter_id) (some created_at),
      .insertByStatus issue.project_id (some issue.status.val) created_at issue_id
        (some issue.title) (some issue.priority.val) issue.assignee_id ]
    ++ (match issue.assignee_id with
        | some a => [ .insertByAssignee issue.project_id a (some issue.status.val)
            created_at issue_id (some issue.title) (some issue.priority.val) ]
        | none => [])
    ++ [ .insertByPriority issue.project_id (some issue.priority.val) created_at
          issue_id (some issue.title) (some issue.status.val) issue.assignee_id ]
    ++ (if optTruthy issue.component then
        [ .insertByComponent issue.project_id issue.component created_at issue_id
            (some issue.title) (some issue.status.val) (some issue.priority.val)
            issue.assignee_id ] else []),
    { issue_id := issue_id, project_id := issue.project_id,
      title := some issue.title, description := some issue.description,
      status := some issue.status.val, priority := some issue.priority.val,
      assignee_id := issue.assignee_id, reporter_id := some issue.reporter_id,
      component := issue.component,
      created_at := created_at, updated_at := created_at } )

/-! ## Specification-side notions

The rendered state of an issue (spec section 4.3): the six tracked fields as
string-rendered values, identifiers compared by rendered value and the
component compared with the empty string treated as absent (the per-view
inclusion predicate is "component is not empty"). -/

/-- The six tracked fields of an issue, string-rendered. -/
structure RenderedState where
  title : Option String
  description : Option String
  status : Option String
  priority : Option String
  assignee : Option String
  comp : Option String
  deriving DecidableEq, Repr

/-- The rendered old state an update starts from: the canonical row plus the
current component value. -/
def renderOld (cur : CanonicalRow) (curComp : Option String) : RenderedState :=
  { title := cur.title, description := cur.description,
    status := cur.status, priority := cur.priority,
    assignee := cur.assignee_id.map toString, comp := normComp curComp }

/-- The rendered merged new state of an update. -/
def renderMerged (cur : CanonicalRow) (curComp : Option String) (u : IssueUpdate) :
    RenderedState :=
  { title := mergedTitle cur u, description := mergedDescription cur u,
    status := mergedStatus cur u, priority := mergedPriority cur u,
    assignee := (mergedAssignee cur u).map toString,
    comp := normComp (mergedComponent curComp u) }

/-- 1 when two rendered values differ, else 0. -/
def diffInd (a b : Option String) : Nat := if a ≠ b then 1 else 0

/-- Modelled from the claim: the number of tracked fields (title,
description, status, priority, assignee_id, component) whose rendered value
differs between two states. -/
def trackedFieldsChangedCount (a b : RenderedState) : Nat :=
  diffInd a.title b.title + diffInd a.description b.description +
    diffInd a.status b.status + diffInd a.priority b.priority +
    diffInd a.assignee b.assignee + diffInd a.comp b.comp

/-- The tracked fields in the order the second registration examines them. -/
def trackedFields : List String :=
  ["title", "description", "status", "priority", "assignee_id", "component"]

/-- The rendered value of one tracked field, by field name. -/
def renderField (st : RenderedState) : String → Option String
  | "title" => st.title
  | "description" => st.description
  | "status" => st.status
  | "priority" => st.priority
  | "assignee_id" => st.assignee
  | "component" => st.comp
  | _ => none

/-- Modelled from the claim (C3): every supplied field value equals the
current one, i.e. the merged new state coincides with the old state
field by field. -/
def SuppliedEqual (cur : CanonicalRow) (curComp : Option String) (u : IssueUpdate) : Prop :=
  mergedTitle cur u = cur.title ∧ mergedDescription cur u = cur.description ∧
  mergedStatus cur u = cur.status ∧ mergedPriority cur u = cur.priority ∧
  mergedAssignee cur u = cur.assignee_id ∧ mergedComponent curComp u = curComp

/-! ## Semantics of the view-table writes

Each secondary view table is a partial map from its full primary key to its
non-key columns.  Every INSERT and UPDATE issued against a view table by the
handlers sets all of its non-key columns, and Cassandra INSERT and UPDATE are
both upserts, so both set the key to the given row; DELETE removes the key. -/

/-- The four secondary view tables (key types follow database.py):
by_status   ((project_id, status), created_at, issue_id)      -> title, priority, assignee_id;
by_priority ((project_id, priority), created_at, issue_id)    -> title, status, assignee_id;
by_assignee ((project_id, assignee_id), status, created_at, issue_id) -> title, priority;
by_component ((project_id, component), created_at, issue_id)  -> title, status, priority, assignee_id. -/
structure ViewTables where
  byStatus : UUID × Option String × Timestamp × UUID →
    Option (Option String × Option String × Option UUID)
  byPriority : UUID × Option String × Timestamp × UUID →
    Option (Option String × Option String × Option UUID)
  byAssignee : UUID × UUID × Option String × Timestamp × UUID →
    Option (Option String × Option String)
  byComponent : UUID × Option String × Timestamp × UUID →
    Option (Option String × Option String × Option String × Option UUID)

/-- Two ViewTables are equal when all four tables agree pointwise. -/
theorem ViewTables.ext_of {a b : ViewTables}
    (h1 : a.byStatus = b.byStatus) (h2 : a.byPriority = b.byPriority)
    (h3 : a.byAssignee = b.byAssignee) (h4 : a.byComponent = b.byComponent) :
    a = b := by
  cases a; cases b; simp_all

/-- Apply one write intent to the view tables.  Writes against
issues_by_project and issue_history leave the view tables unchanged. -/
def applyView (st : ViewTables) (op : WriteOp) : ViewTables :=
  match op with
  | .insertByStatus p s c i t pr a =>
    { st with byStatus := fun k => if k = (p, s, c, i) then some (t, pr, a) else st.byStatus k }
  | .updateByStatus p s c i t pr a =>
    { st with byStatus := fun k => if k = (p, s, c, i) then some (t, pr, a) else st.byStatus k }
  | .deleteByStatus p s c i =>
    { st with byStatus := fun k => if k = (p, s, c, i) then none else st.byStatus k }
  | .insertByPriority p pr c i t s a =>
    { st with byPriority := fun k => if k = (p, pr, c, i) then some (t, s, a) else st.byPriority k }
  | .updateByPriority p pr c i t s a =>
    { st with byPriority := fun k => if k = (p, pr, c, i) then some (t, s, a) else st.byPriority k }
  | .deleteByPriority p pr c i =>
    { st with byPriority := fun k => if k = (p, pr, c, i) then none else st.byPriority k }
  | .insertByAssignee p a s c i t pr =>
    { st with byAssignee := fun k => if k = (p, a, s, c, i) then some (t, pr) else st.byAssignee k }
  | .updateByAssignee p a s c i t pr =>
    { st with byAssignee := fun k => if k = (p, a, s, c, i) then some (t, pr) else st.byAssignee k }
  | .deleteByAssignee p a s c i =>
    { st with byAssignee := fun k => if k = (p, a, s, c, i) then none else st.byAssignee k }
  | .insertByComponent p cm c i t s pr a =>
    { st with byComponent := fun k => if k = (p, cm, c, i) then some (t, s, pr, a) else st.byComponent k }
  | .updateByComponent p cm c i t s pr a =>
    { st with byComponent := fun k => if k = (p, cm, c, i) then some (t, s, pr, a) else st.byComponent k }
  | .deleteByComponent p cm c i =>
    { st with byComponent := fun k => if k = (p, cm, c, i) then none else st.byComponent k }
  | _ => st

/-- Apply a sequence of write intents, in order. -/
def applyViews (st : ViewTables) (ops : List WriteOp) : ViewTables :=
  ops.foldl applyView st

/-- The view tables hold exactly the rows the registry demands for the
current state of this issue (spec section 3, View Row invariant), at the keys
an update of the issue touches. -/
def ConsistentViews (p i : UUID) (cur : CanonicalRow) (curComp : Option String)
    (st : ViewTables) : Prop :=
  st.byStatus (p, cur.status, cur.created_at, i) =
    some (cur.title, cur.priority, cur.assignee_id) ∧
  st.byPriority (p, cur.priority, cur.created_at, i) =
    some (cur.title, cur.status, cur.assignee_id) ∧
  (∀ a, cur.assignee_id = some a →
    st.byAssignee (p, a, cur.status, cur.created_at, i) = some (cur.title, cur.priority)) ∧
  (optTruthy curComp = true →
    st.byComponent (p, curComp, cur.created_at, i) =
      some (cur.title, cur.status, cur.priority, cur.assignee_id))

/-! ## Helper lemmas: extracting the per-table writes of an operation -/

theorem opsOn_append (t : Table) (a b : List WriteOp) :
    opsOn t (a ++ b) = opsOn t a ++ opsOn t b :=
  List.filter_append a b

theorem opsOn_of_pure_eq {t : Table} {l : List WriteOp}
    (h : ∀ op ∈ l, op.table = t) : opsOn t l = l :=
  List.filter_eq_self.mpr fun op hop => by simp [h op hop]

theorem opsOn_of_pure_ne {s t : Table} {l : List WriteOp}
    (h : ∀ op ∈ l, op.table = s) (hst : s ≠ t) : opsOn t l = [] :=
  List.filter_eq_nil_iff.mpr fun op hop => by simp [h op hop, hst]

theorem singleton_table_proj (p : UUID) (c : Timestamp) (i : UUID)
    (t d s pr : Option String) (a : Option UUID) (u2 : Timestamp) :
    ∀ op ∈ [WriteOp.updateByProject p c i t d s pr a u2], op.table = Table.proj := by
  intro op hop
  simp only [List.mem_singleton] at hop
  subst hop
  rfl

theorem v2_statusOps_table (p i : UUID) (cur : CanonicalRow) (u : IssueUpdate) :
    ∀ op ∈ v2_statusOps p i cur u, op.table = .stat := by
  intro op hop
  unfold v2_statusOps at hop
  split at hop <;> simp at hop
  · rcases hop with rfl | rfl <;> rfl
  · subst hop; rfl

theorem v2_priorityOps_table (p i : UUID) (cur : CanonicalRow) (u : IssueUpdate) :
    ∀ op ∈ v2_priorityOps p i cur u, op.table = .prio := by
  intro op hop
  unfold v2_priorityOps at hop
  split at hop <;> simp at hop
  · rcases hop with rfl | rfl <;> rfl
  · subst hop; rfl

theorem v2_assigneeOps_table (p i : UUID) (cur : CanonicalRow) (u : IssueUpdate) :
    ∀ op ∈ v2_assigneeOps p i cur u, op.table = .assg := by
  intro op hop
  unfold v2_assigneeOps at hop
  split at hop
  · simp only [List.mem_append] at hop
    rcases hop with hop | hop
    · cases h : cur.assignee_id <;> rw [h] at hop <;> simp at hop
      subst hop; rfl
    · cases h : mergedAssignee cur u <;> rw [h] at hop <;> simp at hop
      subst hop; rfl
  · cases h : mergedAssignee cur u <;> rw [h] at hop <;> simp at hop
    subst hop; rfl

theorem v2_componentOps_table (p i : UUID) (cur : CanonicalRow) (curComp : Option String)
    (u : IssueUpdate) : ∀ op ∈ v2_componentOps p i cur curComp u, op.table = .comp := by
  intro op hop
  unfold v2_componentOps at hop
  split at hop
  · simp only [List.mem_append] at hop
    rcases hop with hop | hop <;> split at hop <;> simp at hop <;> subst hop <;> rfl
  · split at hop <;> simp at hop
    subst hop; rfl

theorem historyInserts_table (p i : UUID) (now : Timestamp) (genId : Nat → UUID)
    (cb : Option UUID) (ch : List (String × Option String × Option String)) :
    ∀ op ∈ historyInserts p i now genId cb ch, op.table = .hist := by
  intro op hop
  unfold historyInserts at hop
  simp only [List.mem_map] at hop
  obtain ⟨e, _, rfl⟩ := hop
  rfl

theorem statusOps_v2_core (p i : UUID) (cur : CanonicalRow) (curComp : Option String)
    (u : IssueUpdate) (now : Timestamp) (genId : Nat → UUID) :
    statusOps (update_issue_v2_core p i cur curComp u now genId).1 =
      v2_statusOps p i cur u := by
  unfold update_issue_v2_core statusOps
  simp only [opsOn_append]
  rw [opsOn_of_pure_ne (singleton_table_proj _ _ _ _ _ _ _ _ _) (by decide),
      opsOn_of_pure_eq (v2_statusOps_table p i cur u),
      opsOn_of_pure_ne (v2_priorityOps_table p i cur u) (by decide),
      opsOn_of_pure_ne (v2_assigneeOps_table p i cur u) (by decide),
      opsOn_of_pure_ne (v2_componentOps_table p i cur curComp u) (by decide),
      opsOn_of_pure_ne (historyInserts_table p i now genId cur.reporter_id _) (by decide)]
  simp

theorem priorityOps_v2_core (p i : UUID) (cur : CanonicalRow) (curComp : Option String)
    (u : IssueUpdate) (now : Timestamp) (genId : Nat → UUID) :
    priorityOps (update_issue_v2_core p i cur curComp u now genId).1 =
      v2_priorityOps p i cur u := by
  unfold update_issue_v2_core priorityOps
  simp only [opsOn_append]
  rw [opsOn_of_pure_ne (singleton_table_proj _ _ _ _ _ _ _ _ _) (by decide),
      opsOn_of_pure_ne (v2_statusOps_table p i cur u) (by decide),
      opsOn_of_pure_eq (v2_priorityOps_table p i cur u),
      opsOn_of_pure_ne (v2_assigneeOps_table p i cur u) (by decide),
      opsOn_of_pure_ne (v2_componentOps_table p i cur curComp u) (by decide),
      opsOn_of_pure_ne (historyInserts_table p i now genId cur.reporter_id _) (by decide)]
  simp

theorem assigneeOps_v2_core (p i : UUID) (cur : CanonicalRow) (curComp : Option String)
    (u : IssueUpdate) (now : Timestamp) (genId : Nat → UUID) :
    assigneeOps (update_issue_v2_core p i cur curComp u now genId).1 =
      v2_assigneeOps p i cur u := by
  unfold update_issue_v2_core assigneeOps
  simp only [opsOn_append]
  rw [opsOn_of_pure_ne (singleton_table_proj _ _ _ _ _ _ _ _ _) (by decide),
      opsOn_of_pure_ne (v2_statusOps_table p i cur u) (by decide),
      opsOn_of_pure_ne (v2_priorityOps_table p i cur u) (by decide),
      opsOn_of_pure_eq (v2_assigneeOps_table p i cur u),
      opsOn_of_pure_ne (v2_componentOps_table p i cur curComp u) (by decide),
      opsOn_of_pure_ne (historyInserts_table p i now genId cur.reporter_id _) (by decide)]
  simp

theorem componentOps_v2_core (p i : UUID) (cur : CanonicalRow) (curComp : Option String)
    (u : IssueUpdate) (now : Timestamp) (genId : Nat → UUID) :
    componentOps (update_issue_v2_core p i cur curComp u now genId).1 =
      v2_componentOps p i cur curComp u := by
  unfold update_issue_v2_core componentOps
  simp only [opsOn_append]
  rw [opsOn_of_pure_ne (singleton_table_proj _ _ _ _ _ _ _ _ _) (by decide),
      opsOn_of_pure_ne (v2_statusOps_table p i cur u) (by decide),
      opsOn_of_pure_ne (v2_priorityOps_table p i cur u) (by decide),
      opsOn_of_pure_ne (v2_assigneeOps_table p i cur u) (by decide),
      opsOn_of_pure_eq (v2_componentOps_table p i cur curComp u),
      opsOn_of_pure_ne (historyInserts_table p i now genId cur.reporter_id _) (by decide)]
  simp

theorem canonicalOps_v2_core (p i : UUID) (cur : CanonicalRow) (curComp : Option String)
    (u : IssueUpdate) (now : Timestamp) (genId : Nat → UUID) :
    canonicalOps (update_issue_v2_core p i cur curComp u now genId).1 =
      [ .updateByProject p cur.created_at i (mergedTitle cur u)
          (mergedDescription cur u) (mergedStatus cur u) (mergedPriority cur u)
          (mergedAssignee cur u) now ] := by
  unfold update_issue_v2_core canonicalOps
  simp only [opsOn_append]
  rw [opsOn_of_pure_eq (singleton_table_proj _ _ _ _ _ _ _ _ _),
      opsOn_of_pure_ne (v2_statusOps_table p i cur u) (by decide),
      opsOn_of_pure_ne (v2_priorityOps_table p i cur u) (by decide),
      opsOn_of_pure_ne (v2_assigneeOps_table p i cur u) (by decide),
      opsOn_of_pure_ne (v2_componentOps_table p i cur curComp u) (by decide),
      opsOn_of_pure_ne (historyInserts_table p i now genId cur.reporter_id _) (by decide)]
  simp

theorem historyRecords_append (a b : List WriteOp) :
    historyRecords (a ++ b) = historyRecords a ++ historyRecords b :=
  List.filterMap_append a b _

theorem historyRecordOf_none {op : WriteOp} (h : op.table ≠ .hist) :
    historyRecordOf op = none := by
  cases op <;> simp_all [WriteOp.table, historyRecordOf]

theorem historyRecords_of_pure_ne {s : Table} {l : List WriteOp}
    (h : ∀ op ∈ l, op.table = s) (hs : s ≠ .hist) : historyRecords l = [] := by
  unfold historyRecords
  refine List.filterMap_eq_nil_iff.mpr ?_
  intro op hop
  exact historyRecordOf_none (by rw [h op hop]; exact hs)

theorem historyRecords_historyInserts (p i : UUID) (now : Timestamp)
    (genId : Nat → UUID) (cb : Option UUID)
    (ch : List (String × Option String × Option String)) :
    historyRecords (historyInserts p i now genId cb ch) = ch := by
  unfold historyRecords historyInserts
  rw [List.filterMap_map]
  have h1 : (historyRecordOf ∘ fun e : Nat × (String × Option String × Option String) =>
      WriteOp.insertHistory p i now (genId e.1) e.2.1 e.2.2.1 e.2.2.2 cb)
      = some ∘ (fun e : Nat × (String × Option String × Option String) => e.2) := rfl
  rw [h1, List.filterMap_eq_map]
  exact List.enum_map_snd ch

theorem historyRecords_v2_core (p i : UUID) (cur : CanonicalRow) (curComp : Option String)
    (u : IssueUpdate) (now : Timestamp) (genId : Nat → UUID) :
    historyRecords (update_issue_v2_core p i cur curComp u now genId).1 =
      v2_changes cur curComp u := by
  unfold update_issue_v2_core
  simp only [historyRecords_append]
  rw [historyRecords_of_pure_ne (singleton_table_proj _ _ _ _ _ _ _ _ _) (by decide),
      historyRecords_of_pure_ne (v2_statusOps_table p i cur u) (by decide),
      historyRecords_of_pure_ne (v2_priorityOps_table p i cur u) (by decide),
      historyRecords_of_pure_ne (v2_assigneeOps_table p i cur u) (by decide),
      historyRecords_of_pure_ne (v2_componentOps_table p i cur curComp u) (by decide),
      historyRecords_historyInserts]
  simp

/-! ## Field-wise bridging lemmas: the presence test in each change condition
of the second registration is redundant, because an omitted field merges to
its current value. -/

theorem title_cond_eq (cur : CanonicalRow) (u : IssueUpdate) :
    (u.title.isSome && (cur.title != mergedTitle cur u))
      = (cur.title != mergedTitle cur u) := by
  cases h : u.title <;> simp [mergedTitle, suppliedOr, h]

theorem description_cond_eq (cur : CanonicalRow) (u : IssueUpdate) :
    (u.description.isSome && (cur.description != mergedDescription cur u))
      = (cur.description != mergedDescription cur u) := by
  cases h : u.description <;> simp [mergedDescription, suppliedOr, h]

theorem status_cond_eq (cur : CanonicalRow) (u : IssueUpdate) :
    (u.status.isSome && (cur.status != mergedStatus cur u))
      = (cur.status != mergedStatus cur u) := by
  cases h : u.status <;> simp [mergedStatus, h]

theorem priority_cond_eq (cur : CanonicalRow) (u : IssueUpdate) :
    (u.priority.isSome && (cur.priority != mergedPriority cur u))
      = (cur.priority != mergedPriority cur u) := by
  cases h : u.priority <;> simp [mergedPriority, h]

theorem assignee_cond_eq (cur : CanonicalRow) (u : IssueUpdate) :
    (u.assignee_id.isSome &&
        (cur.assignee_id.map toString != (mergedAssignee cur u).map toString))
      = (cur.assignee_id.map toString != (mergedAssignee cur u).map toString) := by
  cases h : u.assignee_id <;> simp [mergedAssignee, suppliedOr, h]

theorem component_cond_eq (curComp : Option String) (u : IssueUpdate) :
    (u.component.isSome &&
        (normComp curComp != normComp (mergedComponent curComp u)))
      = (normComp curComp != normComp (mergedComponent curComp u)) := by
  cases h : u.component <;> simp [mergedComponent, suppliedOr, h]

theorem length_ite_singleton (c : Bool)
    (x : List (String × Option String × Option String)) :
    (if c then x else ([] : List (String × Option String × Option String))).length
      = if c then x.length else 0 := by
  cases c <;> simp

theorem diffInd_bne (a b : Option String) :
    (if (a != b) then 1 else 0) = diffInd a b := by
  by_cases h : a = b <;> simp [diffInd, h]

/-- The number of change entries the second registration collects equals the
number of tracked fields whose rendered value differs between the old and the
merged state. -/
theorem v2_changes_length (cur : CanonicalRow) (curComp : Option String)
    (u : IssueUpdate) :
    (v2_changes cur curComp u).length =
      trackedFieldsChangedCount (renderOld cur curComp) (renderMerged cur curComp u) := by
  unfold v2_changes trackedFieldsChangedCount renderOld renderMerged
  simp only [List.length_append, title_cond_eq, description_cond_eq,
    status_cond_eq, priority_cond_eq, assignee_cond_eq, component_cond_eq]
  rw [length_ite_singleton, length_ite_singleton, length_ite_singleton,
    length_ite_singleton, length_ite_singleton, length_ite_singleton]
  simp only [List.length_singleton]
  rw [diffInd_bne, diffInd_bne, diffInd_bne, diffInd_bne, diffInd_bne, diffInd_bne]

/-! ## Further helper lemmas -/

theorem applyViews_append (st : ViewTables) (a b : List WriteOp) :
    applyViews st (a ++ b) = applyViews (applyViews st a) b := by
  unfold applyViews
  exact List.foldl_append applyView st a b

theorem filter_field_ne (c : Bool) (f : String) (hf : (f == "assignee_id") = false)
    (a b : Option String) :
    (if c then [(f, a, b)] else ([] : List (String × Option String × Option String))).filter
        (fun r => r.1 == "assignee_id") = [] := by
  cases c <;> simp [hf]

theorem filter_field_keep (c : Bool) (a b : Option String) :
    (if c then [("assignee_id", a, b)]
     else ([] : List (String × Option String × Option String))).filter
        (fun r => r.1 == "assignee_id")
      = if c then [("assignee_id", a, b)] else [] := by
  cases c <;> simp

theorem map_fst_ite (c : Bool) (f : String) (a b : Option String) :
    ((if c then [(f, a, b)]
      else ([] : List (String × Option String × Option String))).map Prod.fst)
      = if c then [f] else [] := by
  cases c <;> simp

theorem filter_cons_split {α : Type} (p : α → Bool) (a : α) (l : List α) :
    (a :: l).filter p = (if p a then [a] else []) ++ l.filter p := by
  by_cases h : p a = true <;> simp [List.filter_cons, h]

/-! ## Concrete sample inputs used by the closed theorems -/

/-- A canonical row as create_issue would have written it: project 1, created
at 10, issue 2, title "t", description "d", status open, priority high, no
assignee, reporter 3. -/
def sampleRow : CanonicalRow :=
  { project_id := 1, created_at := 10, issue_id := 2, title := some "t",
    description := some "d", status := some "open", priority := some "high",
    assignee_id := none, reporter_id := some 3, updated_at := some 10 }

/-- PUT body {} - no field supplied. -/
def emptyUpdate : IssueUpdate := ⟨none, none, none, none, none, none⟩

/-- PUT body {"title": "t2"} - a title-only change. -/
def titleOnlyUpdate : IssueUpdate := ⟨some (some "t2"), none, none, none, none, none⟩

/-- PUT body {"title": "t"} - supplies the title equal to sampleRow's. -/
def titleEqualUpdate : IssueUpdate := ⟨some (some "t"), none, none, none, none, none⟩

/-- PUT body {"status": "open"} - supplies the status equal to sampleRow's. -/
def statusEqualUpdate : IssueUpdate := ⟨none, none, some (some .OPEN), none, none, none⟩

/-- PUT body {"status": "in_progress"} - a status change for sampleRow. -/
def statusChangeUpdate : IssueUpdate := ⟨none, none, some (some .IN_PROGRESS), none, none, none⟩

/-- PUT body {"assignee_id": 7} - sets the assignee of the unassigned sampleRow. -/
def assigneeSetUpdate : IssueUpdate := ⟨none, none, none, none, some (some 7), none⟩

/-- A generator for the fresh uuids of an operation: the k-th is 100+k. -/
def sampleGen : Nat → UUID := fun k => 100 + k

/-- An IssueCreate with no assignee and no component. -/
def sampleCreate : IssueCreate :=
  { project_id := 1, title := "t", description := "d", status := .OPEN,
    priority := .HIGH, assignee_id := none, reporter_id := 3, component := none }

/-- View tables consistent with sampleRow (no by_assignee or by_component
rows, since it has no assignee and no component). -/
def sampleViews : ViewTables :=
  { byStatus := fun k => if k = (1, some "open", 10, 2)
      then some (some "t", some "high", none) else none,
    byPriority := fun k => if k = (1, some "high", 10, 2)
      then some (some "t", some "open", none) else none,
    byAssignee := fun _ => none,
    byComponent := fun _ => none }

/-! ## The claims -/

/-- C1: for every update on an existing issue the number of history events
persisted equals the number of tracked fields whose rendered value changed in
the merge.  This holds for the second-registered implementation (second
conjunct, over every input), but the route is served by the first-registered
implementation, which raises KeyError reading the nonexistent component
column of issues_by_project before any write: a title-only change (one
changed tracked field) persists zero history events (first conjunct). -/
theorem c1_update_history_event_count :
    update_issue_v1 [sampleRow] 1 2 titleOnlyUpdate 11 sampleGen
        = ([], .error .keyErrorComponent) ∧
    ∀ (p i : UUID) (cur : CanonicalRow) (curComp : Option String) (u : IssueUpdate)
      (now : Timestamp) (genId : Nat → UUID),
      (historyRecords (update_issue_v2_core p i cur curComp u now genId).1).length
        = trackedFieldsChangedCount (renderOld cur curComp) (renderMerged cur curComp u) := by
  constructor
  · rfl
  · intro p i cur curComp u now genId
    rw [historyRecords_v2_core, v2_changes_length]

/-- C2: in the second-registered implementation, issues_by_status and
issues_by_priority get DELETE(old key)+INSERT(new key) exactly when the
partition-key field's value changes, and a single in-place UPDATE keyed by
the unchanged old key otherwise (second conjunct).  The first-registered
implementation, which serves the route, raises KeyError before emitting any
view write: a status change emits nothing (first conjunct). -/
theorem c2_view_key_sync :
    update_issue_v1 [sampleRow] 1 2 statusChangeUpdate 11 sampleGen
        = ([], .error .keyErrorComponent) ∧
    ∀ (p i : UUID) (cur : CanonicalRow) (curComp : Option String) (u : IssueUpdate)
      (now : Timestamp) (genId : Nat → UUID),
      (statusOps (update_issue_v2_core p i cur curComp u now genId).1 =
        if mergedStatus cur u ≠ cur.status then
          [ .deleteByStatus p cur.status cur.created_at i,
            .insertByStatus p (mergedStatus cur u) cur.created_at i
              (mergedTitle cur u) (mergedPriority cur u) (mergedAssignee cur u) ]
        else
          [ .updateByStatus p cur.status cur.created_at i
              (mergedTitle cur u) (mergedPriority cur u) (mergedAssignee cur u) ]) ∧
      (priorityOps (update_issue_v2_core p i cur curComp u now genId).1 =
        if mergedPriority cur u ≠ cur.priority then
          [ .deleteByPriority p cur.priority cur.created_at i,
            .insertByPriority p (mergedPriority cur u) cur.created_at i
              (mergedTitle cur u) (mergedStatus cur u) (mergedAssignee cur u) ]
        else
          [ .updateByPriority p cur.priority cur.created_at i
              (mergedTitle cur u) (mergedStatus cur u) (mergedAssignee cur u) ]) := by
  constructor
  · rfl
  · intro p i cur curComp u now genId
    constructor
    · rw [statusOps_v2_core]
      unfold v2_statusOps v2_status_changed
      rw [status_cond_eq]
      by_cases h : mergedStatus cur u = cur.status
      · rw [if_neg (by simp [h]), if_neg (by simp [h]), h]
      · rw [if_pos (by simp only [bne_iff_ne, ne_eq]; exact fun hh => h hh.symm),
            if_pos h]
    · rw [priorityOps_v2_core]
      unfold v2_priorityOps v2_priority_changed
      rw [priority_cond_eq]
      by_cases h : mergedPriority cur u = cur.priority
      · rw [if_neg (by simp [h]), if_neg (by simp [h]), h]
      · rw [if_pos (by simp only [bne_iff_ne, ne_eq]; exact fun hh => h hh.symm),
            if_pos h]

/-- C4: the catch-all exception wrapper of both registrations re-raises every
failure - the handler's own 404 NotFound and 400 NoOpUpdate included - as
HTTP 500, the same status a storage error gets, so the three outcomes are not
distinguishable by the caller. -/
theorem c4_failure_outcomes_conflated :
    servedStatus (update_issue_v1 [] 1 2 titleOnlyUpdate 11 sampleGen).2 = 500 ∧
    (update_issue_v1 [] 1 2 titleOnlyUpdate 11 sampleGen).2 = .error .notFound ∧
    servedStatus (update_issue_v2 [sampleRow] none 1 2 emptyUpdate 11 sampleGen).2 = 500 ∧
    (update_issue_v2 [sampleRow] none 1 2 emptyUpdate 11 sampleGen).2 = .error .noFields ∧
    servedStatus (.error (.storage "db unavailable")) = 500 :=
  ⟨rfl, rfl, rfl, rfl, rfl⟩

/-- C5: an update of an existing issue with an empty payload fails on the
NoOpUpdate path (HTTPException 400, "No fields to update") in both
registrations, with no write issued to any table. -/
theorem c5_empty_payload_no_writes :
    ∀ (rows : List CanonicalRow) (curComp : Option String) (p i : UUID)
      (u : IssueUpdate) (now : Timestamp) (genId : Nat → UUID) (cur : CanonicalRow),
      rows.find? (fun r => r.issue_id == i) = some cur →
      u.isEmpty = true →
      update_issue_v1 rows p i u now genId = ([], .error .noFields) ∧
      update_issue_v2 rows curComp p i u now genId = ([], .error .noFields) := by
  intro rows curComp p i u now genId cur hfind hempty
  constructor
  · unfold update_issue_v1
    rw [hfind, hempty]
    rfl
  · unfold update_issue_v2
    rw [hfind, hempty]
    rfl

/-- Witness for C5 at a concrete input. -/
theorem c5_witness :
    [sampleRow].find? (fun r => r.issue_id == 2) = some sampleRow ∧
    emptyUpdate.isEmpty = true ∧
    update_issue_v1 [sampleRow] 1 2 emptyUpdate 11 sampleGen = ([], .error .noFields) ∧
    update_issue_v2 [sampleRow] none 1 2 emptyUpdate 11 sampleGen = ([], .error .noFields) :=
  ⟨rfl, rfl,
    (c5_empty_payload_no_writes [sampleRow] none 1 2 emptyUpdate 11 sampleGen sampleRow rfl rfl).1,
    (c5_empty_payload_no_writes [sampleRow] none 1 2 emptyUpdate 11 sampleGen sampleRow rfl rfl).2⟩

/-- C6: an update naming an issue with no canonical row fails on the NotFound
path (HTTPException 404, "Issue not found") in both registrations, with no
write issued to any table. -/
theorem c6_notfound_no_writes :
    ∀ (rows : List CanonicalRow) (curComp : Option String) (p i : UUID)
      (u : IssueUpdate) (now : Timestamp) (genId : Nat → UUID),
      rows.find? (fun r => r.issue_id == i) = none →
      update_issue_v1 rows p i u now genId = ([], .error .notFound) ∧
      update_issue_v2 rows curComp p i u now genId = ([], .error .notFound) := by
  intro rows curComp p i u now genId hfind
  constructor
  · unfold update_issue_v1
    rw [hfind]
  · unfold update_issue_v2
    rw [hfind]

/-- Witness for C6 at a concrete input. -/
theorem c6_witness :
    ([] : List CanonicalRow).find? (fun r => r.issue_id == 2) = none ∧
    update_issue_v1 [] 1 2 titleOnlyUpdate 11 sampleGen = ([], .error .notFound) ∧
    update_issue_v2 [] none 1 2 titleOnlyUpdate 11 sampleGen = ([], .error .notFound) :=
  ⟨rfl,
    (c6_notfound_no_writes [] none 1 2 titleOnlyUpdate 11 sampleGen rfl).1,
    (c6_notfound_no_writes [] none 1 2 titleOnlyUpdate 11 sampleGen rfl).2⟩

/-- C7: every canonical-table write of an update is a single in-place UPDATE
keyed by the existing (project_id, created_at, issue_id) - never a
delete+insert - whose SET list cannot touch reporter_id or created_at, and
the returned state keeps the old reporter_id and created_at; the
first-registered implementation issues no canonical write at all. -/
theorem c7_canonical_inplace_immutable :
    ∀ (p i : UUID) (cur : CanonicalRow) (curComp : Option String) (u : IssueUpdate)
      (now : Timestamp) (genId : Nat → UUID),
      canonicalOps (update_issue_v2_core p i cur curComp u now genId).1 =
        [ .updateByProject p cur.created_at i (mergedTitle cur u)
            (mergedDescription cur u) (mergedStatus cur u) (mergedPriority cur u)
            (mergedAssignee cur u) now ] ∧
      (update_issue_v2_core p i cur curComp u now genId).2.reporter_id = cur.reporter_id ∧
      (update_issue_v2_core p i cur curComp u now genId).2.created_at = cur.created_at ∧
      ∀ rows : List CanonicalRow, (update_issue_v1 rows p i u now genId).1 = [] := by
  intro p i cur curComp u now genId
  refine ⟨canonicalOps_v2_core p i cur curComp u now genId, rfl, rfl, ?_⟩
  intro rows
  unfold update_issue_v1
  cases hfind : rows.find? (fun r => r.issue_id == i)
  · rfl
  · cases hemp : (u.isEmpty : Bool) <;> rfl

/-- C8: in the second-registered implementation, setting the assignee of an
unassigned issue to U1 emits exactly one issues_by_assignee write - an INSERT
keyed by (project, U1) with no DELETE - and exactly one assignee_id history
event with old_value None and new_value str(U1).  The first-registered
implementation, which serves the route, raises KeyError before inserting the
row or the event (first conjunct). -/
theorem c8_assignee_none_to_user :
    update_issue_v1 [sampleRow] 1 2 assigneeSetUpdate 11 sampleGen
        = ([], .error .keyErrorComponent) ∧
    ∀ (p i : UUID) (cur : CanonicalRow) (curComp : Option String) (u : IssueUpdate)
      (now : Timestamp) (genId : Nat → UUID) (U1 : UUID),
      cur.assignee_id = none → u.assignee_id = some (some U1) →
      assigneeOps (update_issue_v2_core p i cur curComp u now genId).1 =
        [ .insertByAssignee p U1 (mergedStatus cur u) cur.created_at i
            (mergedTitle cur u) (mergedPriority cur u) ] ∧
      (historyRecords (update_issue_v2_core p i cur curComp u now genId).1).filter
          (fun r => r.1 == "assignee_id")
        = [("assignee_id", none, some (toString U1))] := by
  constructor
  · rfl
  · intro p i cur curComp u now genId U1 hold hsup
    have hma : mergedAssignee cur u = some U1 := by
      unfold mergedAssignee suppliedOr
      rw [hsup]
    constructor
    · rw [assigneeOps_v2_core]
      unfold v2_assigneeOps
      rw [hold, hma, hsup]
      simp
    · rw [historyRecords_v2_core]
      unfold v2_changes
      rw [hold, hma, hsup]
      simp only [List.filter_append]
      rw [filter_field_ne _ "title" rfl, filter_field_ne _ "description" rfl,
          filter_field_ne _ "status" rfl, filter_field_ne _ "priority" rfl,
          filter_field_keep, filter_field_ne _ "component" rfl]
      simp

/-- Witness for C8 at a concrete input: sampleRow has no assignee and the
payload sets assignee 7. -/
theorem c8_witness :
    sampleRow.assignee_id = none ∧
    assigneeSetUpdate.assignee_id = some (some 7) ∧
    assigneeOps (update_issue_v2_core 1 2 sampleRow none assigneeSetUpdate 11 sampleGen).1 =
      [ .insertByAssignee 1 7 (mergedStatus sampleRow assigneeSetUpdate)
          sampleRow.created_at 2 (mergedTitle sampleRow assigneeSetUpdate)
          (mergedPriority sampleRow assigneeSetUpdate) ] ∧
    (historyRecords (update_issue_v2_core 1 2 sampleRow none assigneeSetUpdate 11 sampleGen).1).filter
        (fun r => r.1 == "assignee_id")
      = [("assignee_id", none, some (toString (7 : Nat)))] :=
  ⟨rfl, rfl,
    (c8_assignee_none_to_user.2 1 2 sampleRow none assigneeSetUpdate 11 sampleGen 7 rfl rfl).1,
    (c8_assignee_none_to_user.2 1 2 sampleRow none assigneeSetUpdate 11 sampleGen 7 rfl rfl).2⟩

/-- C9: create_issue writes an issues_by_assignee row exactly when an
assignee is set and an issues_by_component row exactly when the component is
present (truthy), appends no history, and with both absent writes exactly the
canonical, by_status and by_priority inserts. -/
theorem c9_create_view_rows :
    ∀ (issue : IssueCreate) (iid : UUID) (t : Timestamp),
      assigneeOps (create_issue issue iid t).1 =
        (match issue.assignee_id with
          | some a => [ .insertByAssignee issue.project_id a (some issue.status.val) t iid
              (some issue.title) (some issue.priority.val) ]
          | none => []) ∧
      componentOps (create_issue issue iid t).1 =
        (if optTruthy issue.component then
          [ .insertByComponent issue.project_id issue.component t iid (some issue.title)
              (some issue.status.val) (some issue.priority.val) issue.assignee_id ]
         else []) ∧
      historyRecords (create_issue issue iid t).1 = [] ∧
      (issue.assignee_id = none → issue.component = none →
        (create_issue issue iid t).1 =
          [ .insertByProject issue.project_id t iid (some issue.title)
              (some issue.description) (some issue.status.val) (some issue.priority.val)
              issue.assignee_id (some issue.reporter_id) (some t),
            .insertByStatus issue.project_id (some issue.status.val) t iid
              (some issue.title) (some issue.priority.val) issue.assignee_id,
            .insertByPriority issue.project_id (some issue.priority.val) t iid
              (some issue.title) (some issue.status.val) issue.assignee_id ]) := by
  intro issue iid t
  refine ⟨?_, ?_, ?_, ?_⟩
  · cases ha : issue.assignee_id <;> cases hc : optTruthy issue.component <;>
      simp [create_issue, assigneeOps, opsOn, WriteOp.table, ha, hc]
  · cases ha : issue.assignee_id <;> cases hc : optTruthy issue.component <;>
      simp [create_issue, componentOps, opsOn, WriteOp.table, ha, hc]
  · cases ha : issue.assignee_id <;> cases hc : optTruthy issue.component <;>
      simp [create_issue, historyRecords, historyRecordOf, ha, hc]
  · intro h1 h2
    unfold create_issue
    rw [h1, h2]
    simp [optTruthy]

/-- Witness for C9's both-absent conjunct at a concrete input. -/
theorem c9_witness :
    sampleCreate.assignee_id = none ∧ sampleCreate.component = none ∧
    (create_issue sampleCreate 2 10).1 =
      [ .insertByProject 1 10 2 (some "t") (some "d") (some "open") (some "high")
          none (some 3) (some 10),
        .insertByStatus 1 (some "open") 10 2 (some "t") (some "high") none,
        .insertByPriority 1 (some "high") 10 2 (some "t") (some "open") none ] :=
  ⟨rfl, rfl, (c9_create_view_rows sampleCreate 2 10).2.2.2 rfl rfl⟩

/-- C10 counterexample: the payload supplies status with a value equal to the
current one; the claim says the first-registered implementation then records
a status history event, but it records nothing - it fails with KeyError on
the nonexistent component column before any write. -/
theorem c10_first_registration_counterexample :
    statusEqualUpdate.status.isSome = true ∧
    mergedStatus sampleRow statusEqualUpdate = sampleRow.status ∧
    historyRecords (update_issue_v1 [sampleRow] 1 2 statusEqualUpdate 11 sampleGen).1 = [] ∧
    (update_issue_v1 [sampleRow] 1 2 statusEqualUpdate 11 sampleGen).2
      = .error .keyErrorComponent :=
  ⟨rfl, rfl, rfl, rfl⟩

/-- C10 (amended): the two registrations of PUT /issues/:issue_id are not
behaviorally equivalent.  The first always fails - past its checks it raises
KeyError on the missing component column - and so never writes and never
records history (first conjunct); the second records one history event per
tracked field exactly when the field's rendered value differs after the merge
(second conjunct); at a concrete status change the second persists a status
event while the first persists nothing (last conjuncts). -/
theorem c10_two_registrations_inequivalent :
    (∀ (rows : List CanonicalRow) (p i : UUID) (u : IssueUpdate) (now : Timestamp)
      (genId : Nat → UUID),
      update_issue_v1 rows p i u now genId =
        ([], .error
          (match rows.find? (fun r => r.issue_id == i) with
            | none => .notFound
            | some _ => if u.isEmpty then .noFields else .keyErrorComponent))) ∧
    (∀ (p i : UUID) (cur : CanonicalRow) (curComp : Option String) (u : IssueUpdate)
      (now : Timestamp) (genId : Nat → UUID),
      (historyRecords (update_issue_v2_core p i cur curComp u now genId).1).map Prod.fst =
        trackedFields.filter (fun f =>
          renderField (renderOld cur curComp) f
            != renderField (renderMerged cur curComp u) f)) ∧
    historyRecords (update_issue_v2_core 1 2 sampleRow none statusChangeUpdate 11 sampleGen).1
      = [("status", some "open", some "in_progress")] ∧
    (update_issue_v1 [sampleRow] 1 2 statusChangeUpdate 11 sampleGen).1 = [] := by
  refine ⟨?_, ?_, ?_, rfl⟩
  · intro rows p i u now genId
    unfold update_issue_v1
    cases hfind : rows.find? (fun r => r.issue_id == i)
    · rfl
    · cases hemp : (u.isEmpty : Bool) <;> rfl
  · intro p i cur curComp u now genId
    rw [historyRecords_v2_core]
    unfold v2_changes trackedFields
    rw [filter_cons_split, filter_cons_split, filter_cons_split, filter_cons_split,
        filter_cons_split, filter_cons_split]
    simp only [List.map_append, map_fst_ite, List.filter_nil, List.append_nil,
      renderField, renderOld, renderMerged, title_cond_eq, description_cond_eq,
      status_cond_eq, priority_cond_eq, assignee_cond_eq, component_cond_eq,
      List.append_assoc]
  · rw [historyRecords_v2_core]
    rfl

/-- C3 counterexample: an update whose only supplied field (the title) equals
the current value - so the merged state equals the old state - still emits a
write operation against the issues_by_status view table (an in-place UPDATE),
contradicting "emits no operations / performs no writes to any view table". -/
theorem c3_sync_identity_counterexample :
    SuppliedEqual sampleRow none titleEqualUpdate ∧
    statusOps (update_issue_v2_core 1 2 sampleRow none titleEqualUpdate 11 sampleGen).1
      = [ .updateByStatus 1 (some "open") 10 2 (some "t") (some "high") none ] ∧
    statusOps (update_issue_v2_core 1 2 sampleRow none titleEqualUpdate 11 sampleGen).1
      ≠ [] := by
  refine ⟨⟨rfl, rfl, rfl, rfl, rfl, rfl⟩, by decide, by decide⟩

/-- C3 (amended): an update whose supplied field values all equal the issue's
current values does emit write operations, but they leave every view table's
contents unchanged (the emitted view writes are in-place rewrites of the
existing rows, or delete+insert pairs at one and the same key), and no
history event is appended - provided the view tables were consistent with the
current state. -/
theorem c3_noop_update_preserves_views :
    ∀ (p i : UUID) (cur : CanonicalRow) (curComp : Option String) (u : IssueUpdate)
      (now : Timestamp) (genId : Nat → UUID) (st : ViewTables),
      SuppliedEqual cur curComp u → ConsistentViews p i cur curComp st →
      applyViews st (update_issue_v2_core p i cur curComp u now genId).1 = st ∧
      historyRecords (update_issue_v2_core p i cur curComp u now genId).1 = [] := by
  intro p i cur curComp u now genId st hSE hCons
  obtain ⟨hT, hD, hS, hP, hA, hC⟩ := hSE
  obtain ⟨cS, cP, cA, cC⟩ := hCons
  have hchS : v2_status_changed cur u = false := by
    unfold v2_status_changed
    rw [status_cond_eq, hS]
    simp
  have hchP : v2_priority_changed cur u = false := by
    unfold v2_priority_changed
    rw [priority_cond_eq, hP]
    simp
  have hist0 : v2_changes cur curComp u = [] := by
    unfold v2_changes
    rw [title_cond_eq, description_cond_eq, status_cond_eq, priority_cond_eq,
        assignee_cond_eq, component_cond_eq, hT, hD, hS, hP, hA, hC]
    simp
  refine ⟨?_, by rw [historyRecords_v2_core, hist0]⟩
  have s0 : applyViews st [WriteOp.updateByProject p cur.created_at i (mergedTitle cur u)
      (mergedDescription cur u) (mergedStatus cur u) (mergedPriority cur u)
      (mergedAssignee cur u) now] = st := rfl
  have sStat : applyViews st (v2_statusOps p i cur u) = st := by
    have hb : v2_statusOps p i cur u =
        [ WriteOp.updateByStatus p cur.status cur.created_at i cur.title cur.priority
            cur.assignee_id ] := by
      unfold v2_statusOps
      rw [hchS, hS, hT, hP, hA]
      simp
    rw [hb]
    refine ViewTables.ext_of ?_ rfl rfl rfl
    funext k
    show (if k = (p, cur.status, cur.created_at, i)
        then some (cur.title, cur.priority, cur.assignee_id) else st.byStatus k)
      = st.byStatus k
    by_cases hk : k = (p, cur.status, cur.created_at, i)
    · rw [if_pos hk, hk, cS]
    · rw [if_neg hk]
  have sPrio : applyViews st (v2_priorityOps p i cur u) = st := by
    have hb : v2_priorityOps p i cur u =
        [ WriteOp.updateByPriority p cur.priority cur.created_at i cur.title cur.status
            cur.assignee_id ] := by
      unfold v2_priorityOps
      rw [hchP, hP, hT, hS, hA]
      simp
    rw [hb]
    refine ViewTables.ext_of rfl ?_ rfl rfl
    funext k
    show (if k = (p, cur.priority, cur.created_at, i)
        then some (cur.title, cur.status, cur.assignee_id) else st.byPriority k)
      = st.byPriority k
    by_cases hk : k = (p, cur.priority, cur.created_at, i)
    · rw [if_pos hk, hk, cP]
    · rw [if_neg hk]
  have sAssg : applyViews st (v2_assigneeOps p i cur u) = st := by
    cases hx : cur.assignee_id with
    | none =>
      have hb : v2_assigneeOps p i cur u = [] := by
        unfold v2_assigneeOps
        rw [hchS, hA, hx]
        simp
      rw [hb]
      rfl
    | some a =>
      have hA2 : mergedAssignee cur u = some a := by rw [hA, hx]
      cases hsup : u.assignee_id with
      | none =>
        have hb : v2_assigneeOps p i cur u =
            [ WriteOp.updateByAssignee p a (mergedStatus cur u) cur.created_at i
                (mergedTitle cur u) (mergedPriority cur u) ] := by
          unfold v2_assigneeOps
          rw [hchS, hA2, hsup]
          simp
        rw [hb, hS, hT, hP]
        refine ViewTables.ext_of rfl rfl ?_ rfl
        funext k
        show (if k = (p, a, cur.status, cur.created_at, i)
            then some (cur.title, cur.priority) else st.byAssignee k) = st.byAssignee k
        by_cases hk : k = (p, a, cur.status, cur.created_at, i)
        · rw [if_pos hk, hk, cA a hx]
        · rw [if_neg hk]
      | some av =>
        have hb : v2_assigneeOps p i cur u =
            [ WriteOp.deleteByAssignee p a cur.status cur.created_at i,
              WriteOp.insertByAssignee p a (mergedStatus cur u) cur.created_at i
                (mergedTitle cur u) (mergedPriority cur u) ] := by
          unfold v2_assigneeOps
          rw [hchS, hA2, hsup, hx]
          simp
        rw [hb, hS, hT, hP]
        refine ViewTables.ext_of rfl rfl ?_ rfl
        funext k
        show (if k = (p, a, cur.status, cur.created_at, i)
            then some (cur.title, cur.priority)
            else if k = (p, a, cur.status, cur.created_at, i) then none
              else st.byAssignee k)
          = st.byAssignee k
        by_cases hk : k = (p, a, cur.status, cur.created_at, i)
        · rw [if_pos hk, hk, cA a hx]
        · rw [if_neg hk, if_neg hk]
  have sComp : applyViews st (v2_componentOps p i cur curComp u) = st := by
    cases hsup : u.component with
    | none =>
      cases htr : optTruthy curComp with
      | false =>
        have hb : v2_componentOps p i cur curComp u = [] := by
          unfold v2_componentOps
          rw [hsup, hC, htr]
          simp
        rw [hb]
        rfl
      | true =>
        have hb : v2_componentOps p i cur curComp u =
            [ WriteOp.updateByComponent p curComp cur.created_at i (mergedTitle cur u)
                (mergedStatus cur u) (mergedPriority cur u) (mergedAssignee cur u) ] := by
          unfold v2_componentOps
          rw [hsup, hC, htr]
          simp
        rw [hb, hS, hT, hP, hA]
        refine ViewTables.ext_of rfl rfl rfl ?_
        funext k
        show (if k = (p, curComp, cur.created_at, i)
            then some (cur.title, cur.status, cur.priority, cur.assignee_id)
            else st.byComponent k) = st.byComponent k
        by_cases hk : k = (p, curComp, cur.created_at, i)
        · rw [if_pos hk, hk, cC htr]
        · rw [if_neg hk]
    | some cv =>
      cases htr : optTruthy curComp with
      | false =>
        have hb : v2_componentOps p i cur curComp u = [] := by
          unfold v2_componentOps
          rw [hsup, hC, htr]
          simp
        rw [hb]
        rfl
      | true =>
        have hb : v2_componentOps p i cur curComp u =
            [ WriteOp.deleteByComponent p curComp cur.created_at i,
              WriteOp.insertByComponent p curComp cur.created_at i (mergedTitle cur u)
                (mergedStatus cur u) (mergedPriority cur u) (mergedAssignee cur u) ] := by
          unfold v2_componentOps
          rw [hsup, hC, htr]
          simp
        rw [hb, hS, hT, hP, hA]
        refine ViewTables.ext_of rfl rfl rfl ?_
        funext k
        show (if k = (p, curComp, cur.created_at, i)
            then some (cur.title, cur.status, cur.priority, cur.assignee_id)
            else if k = (p, curComp, cur.created_at, i) then none
              else st.byComponent k)
          = st.byComponent k
        by_cases hk : k = (p, curComp, cur.created_at, i)
        · rw [if_pos hk, hk, cC htr]
        · rw [if_neg hk, if_neg hk]
  unfold update_issue_v2_core
  rw [applyViews_append, applyViews_append, applyViews_append, applyViews_append,
      applyViews_append, s0, sStat, sPrio, sAssg, sComp, hist0]
  rfl

/-- Witness for C3's amended theorem at a concrete input: a supplied-equal
title update of sampleRow over consistent view tables. -/
theorem c3_witness :
    SuppliedEqual sampleRow none titleEqualUpdate ∧
    ConsistentViews 1 2 sampleRow none sampleViews ∧
    applyViews sampleViews
        (update_issue_v2_core 1 2 sampleRow none titleEqualUpdate 11 sampleGen).1
      = sampleViews ∧
    historyRecords (update_issue_v2_core 1 2 sampleRow none titleEqualUpdate 11 sampleGen).1
      = [] := by
  have hse : SuppliedEqual sampleRow none titleEqualUpdate :=
    ⟨rfl, rfl, rfl, rfl, rfl, rfl⟩
  have hcons : ConsistentViews 1 2 sampleRow none sampleViews := by
    refine ⟨by decide, by decide, ?_, ?_⟩
    · intro a ha
      simp [sampleRow] at ha
    · intro htr
      simp [optTruthy] at htr
  exact ⟨hse, hcons,
    (c3_noop_update_preserves_views 1 2 sampleRow none titleEqualUpdate 11 sampleGen
      sampleViews hse hcons).1,
    (c3_noop_update_preserves_views 1 2 sampleRow none titleEqualUpdate 11 sampleGen
      sampleViews hse hcons).2⟩

end BugTracker
